import Mathlib

/-!
Verification development for the musikr ID3v2 tagging library.

Byte buffers are modelled as `List Nat` (each element a byte value, `< 256`
where it matters).  Rust functions that can panic (out-of-bounds indexing or
slicing) are embedded as `Option`-valued functions, `none` marking the panic.
Rust `String` values produced by the standard library's lossy decoders are
modelled by constructors that record which decoder ran on which data, since
the claims under study never depend on the decoded characters themselves.
-/

deriving instance DecidableEq for Except

namespace Libmusikr

/-! ## libmusikr/src/id3/frame/string.rs -/

def ENCODING_ASCII : Nat := 0x00

def ENCODING_UTF16_BOM : Nat := 0x01

def ENCODING_UTF16_BE : Nat := 0x02

def ENCODING_UTF8 : Nat := 0x03

inductive Encoding where
  | Utf8
  | Utf16Le
  | Utf16Be
  | Utf16Bom
deriving DecidableEq, Repr

/-- `Encoding::from_raw`: the `match` over the four encoding byte constants,
with the wildcard arm falling back to `Utf8`. -/
def Encoding.from_raw (flag : Nat) : Encoding :=
  if flag = ENCODING_ASCII ∨ flag = ENCODING_UTF8 then Encoding.Utf8
  else if flag = ENCODING_UTF16_BOM then Encoding.Utf16Bom
  else if flag = ENCODING_UTF16_BE then Encoding.Utf16Be
  else Encoding.Utf8

/-- A Rust `String` produced by one of the standard library's lossy decoders.
The constructor records the decoder and the exact bytes / code units handed to
it.  `fromUtf16NeLossy` keeps the raw bytes because native byte order is
platform-dependent. -/
inductive RustString where
  | fromUtf8Lossy (bytes : List Nat)
  | fromUtf16LeLossy (units : List Nat)
  | fromUtf16BeLossy (units : List Nat)
  | fromUtf16NeLossy (bytes : List Nat)
deriving DecidableEq, Repr

/-- `chunks_exact(2)` + `u16::from_le_bytes` over a byte slice; the trailing
byte of an odd-length slice is discarded, as `chunks_exact` does. -/
def utf16_units_le : List Nat → List Nat
  | a :: b :: rest => (a + 256 * b) :: utf16_units_le rest
  | _ => []

/-- `chunks_exact(2)` + `u16::from_be_bytes` over a byte slice. -/
def utf16_units_be : List Nat → List Nat
  | a :: b :: rest => (256 * a + b) :: utf16_units_be rest
  | _ => []

def str_from_utf16le (data : List Nat) : RustString :=
  RustString.fromUtf16LeLossy (utf16_units_le data)

def str_from_utf16be (data : List Nat) : RustString :=
  RustString.fromUtf16BeLossy (utf16_units_be data)

def str_from_utf16ne (data : List Nat) : RustString :=
  RustString.fromUtf16NeLossy data

/-- `get_string`.  The `Utf16Bom` arm evaluates `data[0]` and `data[1]`;
in Rust both index expressions panic when out of bounds, modelled here by
`none`. -/
def get_string (encoding : Encoding) (data : List Nat) : Option RustString :=
  match encoding with
  | Encoding.Utf8 => some (RustString.fromUtf8Lossy data)
  | Encoding.Utf16Le => some (str_from_utf16le data)
  | Encoding.Utf16Be => some (str_from_utf16be data)
  | Encoding.Utf16Bom =>
    match data[0]?, data[1]? with
    | some b0, some b1 =>
      if b0 = 0xFF ∧ b1 = 0xFE then some (str_from_utf16le (data.drop 2))
      else if b0 = 0xFE ∧ b1 = 0xFF then some (str_from_utf16be (data.drop 2))
      else some (str_from_utf16ne data)
    | _, _ => none

/-- The loop of `slice_nul_utf8`, searching for a single `0x00`.  The
returned pair is `(&data[0..size], size_consumed)`. -/
def slice_nul_utf8_go (data : List Nat) (size : Nat) : List Nat × Nat :=
  if size ≥ data.length then (data.take size, size)
  else if data.getD size 0 = 0 then (data.take size, size + 1)
  else slice_nul_utf8_go data (size + 1)
termination_by data.length - size

def slice_nul_utf8 (data : List Nat) : List Nat × Nat :=
  slice_nul_utf8_go data 0

/-- The loop of `slice_nul_utf16`, scanning 2-byte-aligned pairs for
`0x00 0x00`.  The loop guard is `size + 1 > data.len()`; inside the loop the
code evaluates `data[size] == 0 && data[size + 1] == 0` (with Rust's
short-circuit `&&`) and on return slices `&data[0..size]`.  Each indexing or
slicing that is out of bounds in Rust panics, modelled as `none`. -/
def slice_nul_utf16_go (data : List Nat) (size : Nat) : Option (List Nat × Nat) :=
  if size + 1 > data.length then
    if size ≤ data.length then some (data.take size, size) else none
  else
    match data[size]? with
    | none => none
    | some b =>
      if b = 0 then
        match data[size + 1]? with
        | none => none
        | some b2 =>
          if b2 = 0 then some (data.take size, size + 2)
          else slice_nul_utf16_go data (size + 2)
      else slice_nul_utf16_go data (size + 2)
termination_by data.length + 2 - size
decreasing_by
  all_goals simp_all; omega

def slice_nul_utf16 (data : List Nat) : Option (List Nat × Nat) :=
  slice_nul_utf16_go data 0

/-- `get_terminated_string`: pick the terminator scanner by encoding, then
decode the bytes before the terminator. -/
def get_terminated_string (encoding : Encoding) (data : List Nat) :
    Option (RustString × Nat) :=
  match (match encoding with
         | Encoding.Utf8 => some (slice_nul_utf8 data)
         | _ => slice_nul_utf16 data) with
  | none => none
  | some (string_data, size) =>
    match get_string encoding string_data with
    | none => none
    | some s => some (s, size)

end Libmusikr

namespace Musikr

/-! ## musikr/src/id3v2.rs -/

/-- The parse error type of `musikr::id3v2` (both generations of the crate
merged: the later internal frame parsers also use `NotEnoughData`).  The
`io::Error` payload of `IoError` is dropped. -/
inductive ParseError where
  | IoError
  | MalformedData
  | Unsupported
  | NotFound
  | NotEnoughData
deriving DecidableEq, Repr

inductive SaveError where
  | IoError
  | TooLarge
deriving DecidableEq, Repr

/-- `u64::checked_sub` (exact on values below `2^64`). -/
def checked_sub (a b : Nat) : Option Nat :=
  if b ≤ a then some (a - b) else none

/-- The padding computation of `Tag::save` (id3v2.rs lines 317-320):
`match u64::checked_sub(old_size, tag_size) { Some(delta) => min(delta, len / 100),
None => 1024 }`.  `old_size` is the size of the pre-existing tag, `tag_size`
the length of the rendered tag body, `len` the file length. -/
def save_padding (old_size tag_size len : Nat) : Nat :=
  match checked_sub old_size tag_size with
  | some delta => min delta (len / 100)
  | none => 1024

def U64_MOD : Nat := 18446744073709551616

/-- `tag_size + padding_size` as computed in `u64` (wrapping at `2^64`,
though the theorems below show the wrap never fires for representable
inputs). -/
def save_final_size (old_size tag_size len : Nat) : Nat :=
  (tag_size + save_padding old_size tag_size len) % U64_MOD

/-- The size check of `Tag::save` (id3v2.rs lines 322-331): the final size is
rejected with `SaveError::TooLarge` when it exceeds `256_000_000`. -/
def save_size_check (old_size tag_size len : Nat) : Except SaveError Nat :=
  let ts := save_final_size old_size tag_size len
  if ts > 256000000 then Except.error SaveError.TooLarge else Except.ok ts

inductive Version where
  | V22
  | V23
  | V24
deriving DecidableEq, Repr

/-- The forced version upgrade at the start of `Tag::save` (id3v2.rs lines
259-262): V2.2 and V2.3 update to V2.3, V2.4 updates to V2.4. -/
def upgradedVersion : Version → Version
  | Version.V22 => Version.V23
  | Version.V23 => Version.V23
  | Version.V24 => Version.V24

/-- The data of a `Tag` relevant to body assembly in `Tag::save`: the tag's
version before saving, the rendered bytes of the extended header, of the
known-frame map, and of the unknown frames, and the version the unknown
frames were parsed under. -/
structure TagRender where
  version : Version
  extRender : List Nat
  framesRender : List Nat
  unknownVersion : Version
  unknownRender : List Nat
deriving DecidableEq, Repr

/-- The body assembly of `Tag::save` (id3v2.rs lines 272-290): extended
header render, then the known frames, then the unknown frames — the latter
only when `self.unknown_frames.version() == self.version()`, the tag version
after the forced upgrade. -/
def save_assemble (t : TagRender) : List Nat :=
  let v := upgradedVersion t.version
  t.extRender ++ t.framesRender ++
    (if t.unknownVersion = v then t.unknownRender else [])

/-- The tag header fields read by `TagHeader::parse`; the flag byte is kept
raw. -/
structure TagHeader where
  major : Nat
  minor : Nat
  flagsByte : Nat
  size : Nat
deriving DecidableEq, Repr

/-- Syncsafe decoding (spec section 4.1): each byte contributes its low 7
bits; any byte with the high bit set fails with `MalformedData`. -/
def syncsafe_decode (bs : List Nat) : Except ParseError Nat :=
  if bs.any (fun b => 0x80 ≤ b) then Except.error ParseError.MalformedData
  else Except.ok (bs.foldl (fun acc b => acc * 0x80 + b % 0x80) 0)

/-- Modelled from the spec: `TagHeader::parse` (musikr/src/id3v2/tag.rs is
not under src/).  Spec section 4.4: verify the `"ID3"` magic (else
`MalformedData`); read major/minor; read the flag byte; syncsafe-decode the
4-byte size.  A major version outside {2,3,4} (the invariant of spec section
3) is reported as `Unsupported`, the taxonomy of spec section 7 for a
recognized but intentionally unhandled construct. -/
def tag_header_parse (raw : List Nat) : Except ParseError TagHeader :=
  if raw.take 3 ≠ [0x49, 0x44, 0x33] then Except.error ParseError.MalformedData
  else
    let major := raw.getD 3 0
    let minor := raw.getD 4 0
    if major ≠ 2 ∧ major ≠ 3 ∧ major ≠ 4 then Except.error ParseError.Unsupported
    else
      match syncsafe_decode ((raw.drop 6).take 4) with
      | Except.error e => Except.error e
      | Except.ok size => Except.ok ⟨major, minor, raw.getD 5 0, size⟩

/-- The error remap of `Tag::open` (id3v2.rs lines 89-92):
`TagHeader::parse(..).map_err(|err| match err { MalformedData => NotFound,
err => err })`. -/
def open_header_err_remap : ParseError → ParseError
  | ParseError.MalformedData => ParseError.NotFound
  | e => e

/-- The header stage of `Tag::open` (id3v2.rs lines 83-92) as a function of
the file's bytes: `read_exact` of 10 bytes fails with an IO error when the
file is shorter, then `TagHeader::parse` runs with its error remapped. -/
def open_header_stage (file : List Nat) : Except ParseError TagHeader :=
  if file.length < 10 then Except.error ParseError.IoError
  else
    match tag_header_parse (file.take 10) with
    | Except.error e => Except.error (open_header_err_remap e)
    | Except.ok h => Except.ok h

/-! ## musikr string helpers (modelled from the spec) -/

/-- The string encoding enum of the later musikr crate; `Utf16` is the
UTF-16-with-BOM variant, `Utf16Le` the internal little-endian variant used
when a BOM must be re-used. -/
inductive Enc where
  | Latin1
  | Utf16
  | Utf16Be
  | Utf8
  | Utf16Le
deriving DecidableEq, Repr

/-- Modelled from the spec: `Encoding::nul_size` (musikr/src/core/string.rs
is not under src/).  Spec section 4.2: single-byte encodings terminate with
one `0x00` byte, double-byte encodings with an aligned `0x00 0x00` pair. -/
def Enc.nul_size : Enc → Nat
  | Enc.Latin1 => 1
  | Enc.Utf8 => 1
  | _ => 2

/-- Modelled from the spec: `Encoding::new` (musikr/src/core/string.rs is
not under src/).  The four wire values 0x00-0x03 map to
Latin1/Utf16/Utf16Be/Utf8; other bytes violate format-level invariants and
fail with `MalformedData` (spec section 4.5 error taxonomy). -/
def enc_new (b : Nat) : Except ParseError Enc :=
  if b = 0 then Except.ok Enc.Latin1
  else if b = 1 then Except.ok Enc.Utf16
  else if b = 2 then Except.ok Enc.Utf16Be
  else if b = 3 then Except.ok Enc.Utf8
  else Except.error ParseError.MalformedData

/-- Modelled from the spec: `Encoding::parse` reads byte 0 of the body;
an empty body has no encoding byte (`NotEnoughData`). -/
def enc_parse (data : List Nat) : Except ParseError Enc :=
  match data[0]? with
  | none => Except.error ParseError.NotEnoughData
  | some b => enc_new b

/-- A decoded Rust `String` of the later musikr crate, modelled as the
encoding and the exact bytes handed to the (total, lossy) decoder; the
claims never depend on the decoded characters. -/
structure Decoded where
  enc : Enc
  bytes : List Nat
deriving DecidableEq, Repr

/-- Modelled from the spec: `string::get_string` — decoding a fixed-size
buffer never fails; the result records encoding and bytes. -/
def ms_get_string (e : Enc) (data : List Nat) : Decoded := ⟨e, data⟩

/-- Spec section 4.2 terminator search for single-byte encodings: the bytes
before the first `0x00` and the count consumed including the terminator; a
buffer with no terminator is wholly consumed with no terminator counted. -/
def split_nul1 : List Nat → List Nat × Nat
  | [] => ([], 0)
  | b :: rest =>
    if b = 0 then ([], 1)
    else
      let (s, n) := split_nul1 rest
      (b :: s, n + 1)

/-- Spec section 4.2 terminator search for double-byte encodings: scan
2-byte-aligned pairs for `0x00 0x00`; a buffer with no such pair (odd-length
remainders included) is wholly consumed with no terminator counted. -/
def split_nul2 : List Nat → List Nat × Nat
  | [] => ([], 0)
  | [x] => ([x], 1)
  | a :: b :: rest =>
    if a = 0 ∧ b = 0 then ([], 2)
    else
      let (s, n) := split_nul2 rest
      (a :: b :: s, n + 2)

/-- The `TerminatedString` returned by musikr's
`string::get_terminated_string`: the decoded string and the byte count
consumed including the terminator. -/
structure TerminatedString where
  string : Decoded
  size : Nat
deriving DecidableEq, Repr

/-- Modelled from the spec: `string::get_terminated_string`
(musikr/src/core/string.rs is not under src/). -/
def ms_get_terminated_string (e : Enc) (data : List Nat) : TerminatedString :=
  let (string_data, size) :=
    match e with
    | Enc.Latin1 => split_nul1 data
    | Enc.Utf8 => split_nul1 data
    | _ => split_nul2 data
  ⟨ms_get_string e string_data, size⟩

/-- Modelled from the spec: `raw::to_u16`, plain big-endian 16-bit read
(spec section 4.1). -/
def to_u16 (bs : List Nat) : Nat :=
  256 * bs.getD 0 0 + bs.getD 1 0

/-- Modelled from the spec: `raw::to_u32`, plain big-endian 32-bit read
(spec section 4.1). -/
def to_u32 (bs : List Nat) : Nat :=
  16777216 * bs.getD 0 0 + 65536 * bs.getD 1 0 + 256 * bs.getD 2 0 + bs.getD 3 0

/-- The result of running a fallible Rust parser: success, a returned
error, or a panic (out-of-bounds slice or index). -/
inductive RRes (α : Type) where
  | ok (val : α)
  | err (e : ParseError)
  | panicked
deriving DecidableEq, Repr

/-! ## musikr/src/id3v2/frames/internal/owner.rs -/

structure OwnershipFrame where
  encoding : Enc
  price_paid : Decoded
  purchase_date : Decoded
  seller : Decoded
deriving DecidableEq, Repr

/-- `OwnershipFrame::parse` (owner.rs lines 33-52): encoding byte, the
minimum-length check `data.len() < encoding.nul_size() + 9`, a
Latin1-terminated price string from `&data[1..]`, then
`&data[price.size..price.size + 9]` as the purchase date and
`&data[price.size + 9..]` as the seller.  The date slice panics in Rust when
`price.size + 9 > data.len()`. -/
def ownership_parse (data : List Nat) : RRes OwnershipFrame :=
  match enc_parse data with
  | Except.error e => RRes.err e
  | Except.ok encoding =>
    if data.length < encoding.nul_size + 9 then RRes.err ParseError.NotEnoughData
    else
      let price := ms_get_terminated_string Enc.Latin1 (data.drop 1)
      if price.size + 9 ≤ data.length then
        let purchase_date := ms_get_string Enc.Latin1 ((data.drop price.size).take 9)
        let seller := ms_get_string encoding (data.drop (price.size + 9))
        RRes.ok ⟨encoding, price.string, purchase_date, seller⟩
      else RRes.panicked

/-! ## musikr/src/id3v2/frames/internal/lyrics.rs -/

structure SyncedText where
  text : Decoded
  timestamp : Nat
deriving DecidableEq, Repr

/-- The fields of `SyncedLyricsFrame` filled in by `parse`.  `lang` holds
the bytes handed to `String::from_utf8_lossy`; `time_format` and
`content_type` hold the raw bytes handed to `TimestampFormat::new` and
`SyncedContentType::new` (both byte-enum constructors are total). -/
structure SyncedLyricsFrame where
  encoding : Enc
  lang : List Nat
  time_format : Nat
  content_type : Nat
  desc : Decoded
  lyrics : List SyncedText
deriving DecidableEq, Repr

/-- The `implicit_encoding` computation of `SyncedLyricsFrame::parse`
(lyrics.rs lines 194-206): for the BOM encoding, `raw::to_u16(&data[7..9])`
(which panics when the body is shorter than 9 bytes) selects the
little/big-endian variant; other encodings pass through. -/
def sylt_implicit_encoding (data : List Nat) (encoding : Enc) : RRes Enc :=
  match encoding with
  | Enc.Utf16 =>
    if 9 ≤ data.length then
      let bom := to_u16 ((data.drop 7).take 2)
      RRes.ok
        (if bom = 0xFFFE then Enc.Utf16Le
         else if bom = 0xFEFF then Enc.Utf16Be
         else encoding)
    else RRes.panicked
  | _ => RRes.ok encoding

/-- The lyric loop of `SyncedLyricsFrame::parse` (lyrics.rs lines 210-230):
while `pos < data.len()`, read a 2-byte BOM probe (`&data[pos..pos + 2]`,
panicking past the end), pick the encoding, read a terminated lyric, then a
4-byte timestamp (`&data[pos..pos + 4]` after advancing, panicking past the
end), and continue after the timestamp. -/
def sylt_loop (data : List Nat) (encoding implicit_encoding : Enc) (pos : Nat) :
    RRes (List SyncedText) :=
  if _h : pos < data.length then
    if pos + 2 ≤ data.length then
      let bom := to_u16 ((data.drop pos).take 2)
      let enc := if bom ≠ 0xFEFF ∧ bom ≠ 0xFFFE then implicit_encoding else encoding
      let text := ms_get_terminated_string enc (data.drop pos)
      if pos + text.size + 4 ≤ data.length then
        match sylt_loop data encoding implicit_encoding (pos + text.size + 4) with
        | RRes.ok rest =>
          RRes.ok (⟨text.string, to_u32 ((data.drop (pos + text.size)).take 4)⟩ :: rest)
        | r => r
      else RRes.panicked
    else RRes.panicked
  else RRes.ok []
termination_by data.length - pos
decreasing_by omega

/-- `SyncedLyricsFrame::parse` (lyrics.rs lines 177-233): encoding byte,
minimum-length check `data.len() < encoding.nul_size() + 6`, language from
`&data[1..4]`, the time-format byte from `data[5]`, the content-type byte
from `data[6]`, the terminated description from `&data[7..]`, then the
lyric loop starting at `desc.size + 7`. -/
def sylt_parse (data : List Nat) : RRes SyncedLyricsFrame :=
  match enc_parse data with
  | Except.error e => RRes.err e
  | Except.ok encoding =>
    if data.length < encoding.nul_size + 6 then RRes.err ParseError.NotEnoughData
    else
      let lang := (data.drop 1).take 3
      if 6 < data.length then
        let time_format := data.getD 5 0
        let content_type := data.getD 6 0
        let desc := ms_get_terminated_string encoding (data.drop 7)
        match sylt_implicit_encoding data encoding with
        | RRes.ok ie =>
          match sylt_loop data encoding ie (desc.size + 7) with
          | RRes.ok lyrics =>
            RRes.ok ⟨encoding, lang, time_format, content_type, desc.string, lyrics⟩
          | RRes.err e => RRes.err e
          | RRes.panicked => RRes.panicked
        | RRes.err e => RRes.err e
        | RRes.panicked => RRes.panicked
      else RRes.panicked

end Musikr

namespace MusikrKeys

/-!
## Frame `key()` computations

Rust `String` fields are modelled as `List Char`; `format!` with `:`
separators is concatenation.  Each structure carries the fields of the Rust
struct that its `key()` reads (`id` stands for `self.id()`, the id string of
the frame's header).
-/

/-- `UnsyncLyricsFrame` (musikr lyrics.rs): `key()` is
`format!["{}:{}:{}", self.id(), self.desc, self.lang]` (lines 65-67). -/
structure UnsyncLyricsFrame where
  id : List Char
  lang : List Char
  desc : List Char
  lyrics : List Char
deriving DecidableEq, Repr

def UnsyncLyricsFrame.key (f : UnsyncLyricsFrame) : List Char :=
  f.id ++ [':'] ++ f.desc ++ [':'] ++ f.lang

/-- `ChapterFrame` (musikr chapters.rs): `key()` is
`format!["{}:{}", self.id(), self.element_id]` (lines 62-64).  The embedded
frame map is not read by `key()` and is omitted here. -/
structure ChapterFrame where
  id : List Char
  element_id : List Char
deriving DecidableEq, Repr

def ChapterFrame.key (f : ChapterFrame) : List Char :=
  f.id ++ [':'] ++ f.element_id

/-- `TermsOfUseFrame` (musikr owner.rs): `key()` is
`format!["{}:{}", self.text, self.lang]` (lines 179-182) — built from the
frame's text, not from its id. -/
structure TermsOfUseFrame where
  id : List Char
  lang : List Char
  text : List Char
deriving DecidableEq, Repr

def TermsOfUseFrame.key (f : TermsOfUseFrame) : List Char :=
  f.text ++ [':'] ++ f.lang

/-- `OwnershipFrame` (musikr owner.rs): `key()` is `self.id().clone()`
(lines 80-82), the default of a single-instance frame. -/
structure OwnershipFrameK where
  id : List Char
deriving DecidableEq, Repr

def OwnershipFrameK.key (f : OwnershipFrameK) : List Char :=
  f.id

end MusikrKeys

/-! ## Sanity examples (libmusikr string codec) -/

example : Libmusikr.slice_nul_utf8 [0x41, 0x00, 0x42] = ([0x41], 2) := by
  simp [Libmusikr.slice_nul_utf8, Libmusikr.slice_nul_utf8_go]

example : Libmusikr.slice_nul_utf16 [0x41, 0x00, 0x00, 0x00] = some ([0x41, 0x00], 4) := by
  simp [Libmusikr.slice_nul_utf16, Libmusikr.slice_nul_utf16_go]

example : Libmusikr.slice_nul_utf16 [0x41, 0x00, 0x42, 0x00] = some ([0x41, 0x00, 0x42, 0x00], 4) := by
  simp [Libmusikr.slice_nul_utf16, Libmusikr.slice_nul_utf16_go]

example : Libmusikr.slice_nul_utf16 [0x41] = none := by
  simp [Libmusikr.slice_nul_utf16, Libmusikr.slice_nul_utf16_go]

example : Libmusikr.slice_nul_utf16 [0x00] = none := by
  simp [Libmusikr.slice_nul_utf16, Libmusikr.slice_nul_utf16_go]

example : Libmusikr.get_string Libmusikr.Encoding.Utf16Bom [] = none := by decide

example : Libmusikr.get_string Libmusikr.Encoding.Utf16Bom [0xFF] = none := by decide

example :
    Libmusikr.get_string Libmusikr.Encoding.Utf16Bom [0xFF, 0xFE, 0x41, 0x00] =
      some (Libmusikr.RustString.fromUtf16LeLossy [0x41]) := by decide

example : Libmusikr.Encoding.from_raw 0x07 = Libmusikr.Encoding.Utf8 := by decide

/-! ## Sanity examples (musikr frame parsers) -/

example :
    Musikr.ownership_parse [0, 65, 0, 50, 48, 48, 52, 48, 49, 48, 49, 88] =
      Musikr.RRes.ok
        ⟨Musikr.Enc.Latin1, ⟨Musikr.Enc.Latin1, [65]⟩,
         ⟨Musikr.Enc.Latin1, [0, 50, 48, 48, 52, 48, 49, 48, 49]⟩,
         ⟨Musikr.Enc.Latin1, [88]⟩⟩ := by decide

example : Musikr.ownership_parse [] = Musikr.RRes.err Musikr.ParseError.NotEnoughData := by
  decide

example :
    Musikr.ownership_parse [0, 65, 66, 67, 68, 69, 70, 71, 72, 73] =
      Musikr.RRes.panicked := by decide

example :
    Musikr.sylt_parse [3, 101, 110, 103, 0, 2, 1, 68, 0] =
      Musikr.RRes.ok
        ⟨Musikr.Enc.Utf8, [101, 110, 103], 2, 1, ⟨Musikr.Enc.Utf8, [68]⟩, []⟩ := by
  simp [Musikr.sylt_parse, Musikr.enc_parse, Musikr.enc_new, Musikr.Enc.nul_size,
    Musikr.ms_get_terminated_string, Musikr.split_nul1, Musikr.ms_get_string,
    Musikr.sylt_implicit_encoding, Musikr.sylt_loop]

/-! ## Sanity examples (musikr save path and header stage) -/

example : Musikr.save_padding 2048 1024 500000 = 1024 := by decide

example : Musikr.save_padding 1024 2048 500000 = 1024 := by decide

example : Musikr.save_padding 2048 2048 500000 = 0 := by decide

example : Musikr.save_size_check 1024 2048 500000 = Except.ok 3072 := by decide

example :
    Musikr.open_header_stage [0x41, 0x42, 0x43, 3, 0, 0, 0, 0, 0, 0, 0] =
      Except.error Musikr.ParseError.NotFound := by decide

example :
    Musikr.open_header_stage [0x49, 0x44, 0x33, 9, 0, 0, 0, 0, 0, 0] =
      Except.error Musikr.ParseError.Unsupported := by decide

example :
    Musikr.open_header_stage [0x49, 0x44, 0x33, 3, 0, 0xA0, 0x00, 0x08, 0x49, 0x30] =
      Except.ok ⟨3, 0, 0xA0, 140464⟩ := by decide

/-! ## Helper lemmas -/

theorem take_len_append {α : Type} (a b : List α) : (a ++ b).take a.length = a := by
  induction a with
  | nil => rfl
  | cons x xs ih => simp [ih]

theorem save_padding_le (o t l : Nat) : Musikr.save_padding o t l ≤ o + 1024 := by
  by_cases h : t ≤ o
  · simp only [Musikr.save_padding, Musikr.checked_sub, if_pos h]
    exact le_trans (Nat.min_le_left _ _) (by omega)
  · simp only [Musikr.save_padding, Musikr.checked_sub, if_neg h]
    omega

/-! ## Claim C1 -/

/-- Claim C1 (counterexample): the claim states that when the new body is
larger than **or equal to** the old tag, the padding is the fixed value 1024;
but at `old_size = 2048`, `new_body_size = 2048`, `file_len = 500000` the
code's `u64::checked_sub(2048, 2048)` yields `Some(0)` and the padding is
`min(0, 5000) = 0`, not 1024. -/
theorem c1_padding_counterexample :
    Musikr.save_padding 2048 2048 500000 = 0 ∧
    Musikr.save_padding 2048 2048 500000 ≠ 1024 := by decide

/-- Claim C1 (amended): in `Tag::save`, when the rendered body is non-empty,
if the new body is smaller than **or equal to** the pre-existing tag's
`old_size` the padding equals `min(old_size − new_body_size, file_len / 100)`;
only when it is **strictly** larger is the padding the fixed value 1024. -/
theorem c1_padding (old_size tag_size len : Nat) :
    (tag_size ≤ old_size →
      Musikr.save_padding old_size tag_size len =
        min (old_size - tag_size) (len / 100)) ∧
    (old_size < tag_size → Musikr.save_padding old_size tag_size len = 1024) := by
  constructor
  · intro h
    simp only [Musikr.save_padding, Musikr.checked_sub, if_pos h]
  · intro h
    simp only [Musikr.save_padding, Musikr.checked_sub, if_neg (by omega : ¬ tag_size ≤ old_size)]

/-- Claim C1 witness: the two worked examples of the spec, evaluated through
`c1_padding`. -/
theorem c1_padding_witness :
    Musikr.save_padding 2048 1024 500000 = 1024 ∧
    Musikr.save_padding 1024 2048 500000 = 1024 :=
  ⟨((c1_padding 2048 1024 500000).1 (by decide)).trans (by decide),
   (c1_padding 1024 2048 500000).2 (by decide)⟩

/-! ## Claim C2 -/

/-- Claim C2 (counterexample): the claim states `TooLarge` fires exactly when
the final size exceeds `2^28 − 1 = 268435455`; but the code compares against
the constant `256_000_000`, so a final size of `256000002` (here: body
`255998978` plus the fixed 1024 padding) is rejected although it is at most
`268435455`. -/
theorem c2_size_check_counterexample :
    Musikr.save_size_check 0 255998978 123 = Except.error Musikr.SaveError.TooLarge ∧
    Musikr.save_final_size 0 255998978 123 = 256000002 ∧
    Musikr.save_final_size 0 255998978 123 ≤ 268435455 := by decide

/-- Claim C2 (amended): `Tag::save` fails with `SaveError::TooLarge` exactly
when the final tag size (body plus padding) exceeds `256_000_000` bytes, a
conservative cap strictly below the syncsafe limit `2^28 − 1`; the check is
performed in `u64` and, for any representable `old_size` (a parsed `u32`) and
body length, the `u64` arithmetic does not wrap. -/
theorem c2_size_check (old_size tag_size len : Nat)
    (h1 : old_size < 4294967296) (h2 : tag_size < 9223372036854775808) :
    (tag_size + Musikr.save_padding old_size tag_size len) % Musikr.U64_MOD =
      tag_size + Musikr.save_padding old_size tag_size len ∧
    (Musikr.save_size_check old_size tag_size len = Except.error Musikr.SaveError.TooLarge ↔
      256000000 < tag_size + Musikr.save_padding old_size tag_size len) := by
  have hp := save_padding_le old_size tag_size len
  have hmod : (tag_size + Musikr.save_padding old_size tag_size len) % Musikr.U64_MOD =
      tag_size + Musikr.save_padding old_size tag_size len := by
    apply Nat.mod_eq_of_lt
    simp only [Musikr.U64_MOD]
    omega
  refine ⟨hmod, ?_⟩
  simp only [Musikr.save_size_check, Musikr.save_final_size, hmod]
  by_cases h : 256000000 < tag_size + Musikr.save_padding old_size tag_size len
  · simp [h]
  · simp [h]

/-- Claim C2 witness: `c2_size_check` applied at the spec's worked example
(`old_size = 1024`, body `2048`, file length `500000`). -/
theorem c2_size_check_witness :
    (2048 + Musikr.save_padding 1024 2048 500000) % Musikr.U64_MOD =
      2048 + Musikr.save_padding 1024 2048 500000 ∧
    (Musikr.save_size_check 1024 2048 500000 = Except.error Musikr.SaveError.TooLarge ↔
      256000000 < 2048 + Musikr.save_padding 1024 2048 500000) :=
  c2_size_check 1024 2048 500000 (by decide) (by decide)

/-! ## Claim C3 -/

/-- Claim C3 (code bug): decoding is **not** total — `get_string` with
`Encoding::Utf16Bom` evaluates `data[0]` and `data[1]`, which panic on the
empty buffer and on any 1-byte buffer; every other encoding variant decodes
without failing. -/
theorem c3_get_string_bom_short_buffer :
    Libmusikr.get_string Libmusikr.Encoding.Utf16Bom [] = none ∧
    Libmusikr.get_string Libmusikr.Encoding.Utf16Bom [0x41] = none ∧
    (∀ data : List Nat, Libmusikr.get_string Libmusikr.Encoding.Utf8 data ≠ none) ∧
    (∀ data : List Nat, Libmusikr.get_string Libmusikr.Encoding.Utf16Le data ≠ none) ∧
    (∀ data : List Nat, Libmusikr.get_string Libmusikr.Encoding.Utf16Be data ≠ none) := by
  refine ⟨by decide, by decide, ?_, ?_, ?_⟩ <;> intro data <;> simp [Libmusikr.get_string]

/-! ## Claim C4 -/

/-- Claim C4 (code bug): `slice_nul_utf16` does **not** consume the whole
buffer on odd-length inputs with no aligned `0x00 0x00` pair — its loop guard
`size + 1 > data.len()` is off by one, so a 1-byte buffer panics (out-of-
bounds index `data[size + 1]` when `data[0] = 0`, out-of-bounds slice
`&data[0..2]` otherwise); an even-length buffer with no aligned pair is
consumed in full as the claim describes. -/
theorem c4_slice_nul_utf16_odd :
    Libmusikr.slice_nul_utf16 [0x41] = none ∧
    Libmusikr.slice_nul_utf16 [0x00] = none ∧
    Libmusikr.slice_nul_utf16 [0x41, 0x42] = some ([0x41, 0x42], 2) ∧
    Libmusikr.slice_nul_utf16 [0x41, 0x00, 0x00, 0x00] = some ([0x41, 0x00], 4) := by
  refine ⟨?_, ?_, ?_, ?_⟩ <;>
    simp [Libmusikr.slice_nul_utf16, Libmusikr.slice_nul_utf16_go]

/-! ## Claim C5 -/

/-- Claim C5 (code bug): `OwnershipFrame::parse` does **not** read the 8-byte
purchase date immediately after the price terminator — the slice
`&data[price.size..price.size + 9]` starts one byte early (at the price
string's terminator, because the leading encoding byte was not added back)
and spans 9 bytes.  On the body `[0x00, 'A', 0x00, "20040101", 'X']` the
parsed date is the terminator byte plus the first 8 date bytes, not the 8
date bytes; and a body of the minimum length whose price string never
terminates makes the same slice panic instead of parsing. -/
theorem c5_ownership_date_skew :
    Musikr.ownership_parse [0, 65, 0, 50, 48, 48, 52, 48, 49, 48, 49, 88] =
      Musikr.RRes.ok
        ⟨Musikr.Enc.Latin1, ⟨Musikr.Enc.Latin1, [65]⟩,
         ⟨Musikr.Enc.Latin1, [0, 50, 48, 48, 52, 48, 49, 48, 49]⟩,
         ⟨Musikr.Enc.Latin1, [88]⟩⟩ ∧
    ([0, 50, 48, 48, 52, 48, 49, 48, 49] : List Nat) ≠
      (([0, 65, 0, 50, 48, 48, 52, 48, 49, 48, 49, 88] : List Nat).drop 3).take 8 ∧
    Musikr.ownership_parse [0, 65, 66, 67, 68, 69, 70, 71, 72, 73] =
      Musikr.RRes.panicked := by decide

/-! ## Claim C6 -/

/-- Claim C6 (counterexample): the claim states the time-format byte is the
byte immediately after the 3-byte language, i.e. `data[4]`.  On the body
`[0x03, 'e', 'n', 'g', 0x00, 0x02, 0x01, 'D', 0x00]` the byte at index 4 is
`0x00`, yet the parsed frame's time-format byte is `0x02` — the code reads it
from `data[5]`, skipping index 4. -/
theorem c6_sylt_counterexample :
    Musikr.sylt_parse [3, 101, 110, 103, 0, 2, 1, 68, 0] =
      Musikr.RRes.ok
        ⟨Musikr.Enc.Utf8, [101, 110, 103], 2, 1, ⟨Musikr.Enc.Utf8, [68]⟩, []⟩ ∧
    ([3, 101, 110, 103, 0, 2, 1, 68, 0] : List Nat).getD 4 0 = 0 ∧
    (2 : Nat) ≠ 0 := by
  refine ⟨?_, by decide, by decide⟩
  simp [Musikr.sylt_parse, Musikr.enc_parse, Musikr.enc_new, Musikr.Enc.nul_size,
    Musikr.ms_get_terminated_string, Musikr.split_nul1, Musikr.ms_get_string,
    Musikr.sylt_implicit_encoding, Musikr.sylt_loop]

/-- Claim C6 (amended): `SyncedLyricsFrame::parse` reads the body as: an
encoding byte at index 0, the 3-byte language at indices 1-3, **a skipped
byte at index 4**, the time-format byte at index 5, the content-type byte at
index 6, then the terminated description starting at index 7 (immediately
after the content-type byte), then repeated (terminated lyric text, 4-byte
timestamp) pairs until the body is exhausted. -/
theorem c6_sylt_layout (data : List Nat) (f : Musikr.SyncedLyricsFrame)
    (h : Musikr.sylt_parse data = Musikr.RRes.ok f) :
    f.lang = (data.drop 1).take 3 ∧
    f.time_format = data.getD 5 0 ∧
    f.content_type = data.getD 6 0 ∧
    ∃ e, Musikr.enc_parse data = Except.ok e ∧ f.encoding = e ∧
      f.desc = (Musikr.ms_get_terminated_string e (data.drop 7)).string := by
  unfold Musikr.sylt_parse at h
  split at h
  · exact absurd h (by simp)
  next enc heq =>
    split at h
    · exact absurd h (by simp)
    · split at h
      · split at h
        · simp only [] at h
          split at h
          · cases h
            exact ⟨rfl, rfl, rfl, enc, heq, rfl, rfl⟩
          · exact absurd h (by simp)
          · exact absurd h (by simp)
        · exact absurd h (by simp)
        · exact absurd h (by simp)
      · exact absurd h (by simp)

/-- Claim C6 witness: `c6_sylt_layout` applied at the concrete body of the
counterexample. -/
theorem c6_sylt_layout_witness :
    (⟨Musikr.Enc.Utf8, [101, 110, 103], 2, 1, ⟨Musikr.Enc.Utf8, [68]⟩, []⟩ :
        Musikr.SyncedLyricsFrame).time_format =
      ([3, 101, 110, 103, 0, 2, 1, 68, 0] : List Nat).getD 5 0 :=
  (c6_sylt_layout [3, 101, 110, 103, 0, 2, 1, 68, 0] _
    (by simp [Musikr.sylt_parse, Musikr.enc_parse, Musikr.enc_new, Musikr.Enc.nul_size,
      Musikr.ms_get_terminated_string, Musikr.split_nul1, Musikr.ms_get_string,
      Musikr.sylt_implicit_encoding, Musikr.sylt_loop])).2.1

/-! ## Claim C7 -/

/-- Claim C7 (counterexample): the claim states a terms-of-use frame's key is
its id extended with its language, so that every frame's key begins with its
id; but `TermsOfUseFrame::key` is built from `self.text`, not `self.id()` —
for a `USER` frame with text `"Terms"` and language `"eng"` the key is
`"Terms:eng"`, which neither equals `"USER:eng"` nor begins with `"USER"`. -/
theorem c7_key_counterexample :
    MusikrKeys.TermsOfUseFrame.key
        ⟨['U', 'S', 'E', 'R'], ['e', 'n', 'g'], ['T', 'e', 'r', 'm', 's']⟩ ≠
      ['U', 'S', 'E', 'R'] ++ [':'] ++ ['e', 'n', 'g'] ∧
    (MusikrKeys.TermsOfUseFrame.key
        ⟨['U', 'S', 'E', 'R'], ['e', 'n', 'g'], ['T', 'e', 'r', 'm', 's']⟩).take
        (['U', 'S', 'E', 'R'] : List Char).length ≠
      ['U', 'S', 'E', 'R'] := by decide

/-- Claim C7 (amended): `key()` defaults to the frame's id (e.g.
`OwnershipFrame`), an unsynchronized-lyrics frame's key is
`id:description:language` and a chapter frame's key is `id:element-id`, both
beginning with the frame's id; but a terms-of-use frame's key is its
**text** joined with its language (`text:lang`), not an extension of its id,
so not every frame's key begins with its id. -/
theorem c7_keys :
    ∀ (u : MusikrKeys.UnsyncLyricsFrame) (c : MusikrKeys.ChapterFrame)
      (t : MusikrKeys.TermsOfUseFrame) (o : MusikrKeys.OwnershipFrameK),
      u.key = u.id ++ [':'] ++ u.desc ++ [':'] ++ u.lang ∧
      u.key.take u.id.length = u.id ∧
      c.key = c.id ++ [':'] ++ c.element_id ∧
      c.key.take c.id.length = c.id ∧
      o.key = o.id ∧
      t.key = t.text ++ [':'] ++ t.lang := by
  intro u c t o
  refine ⟨rfl, ?_, rfl, ?_, rfl, rfl⟩
  · simp only [MusikrKeys.UnsyncLyricsFrame.key, List.append_assoc]
    exact take_len_append _ _
  · simp only [MusikrKeys.ChapterFrame.key, List.append_assoc]
    exact take_len_append _ _

/-! ## Claim C8 -/

/-- Claim C8 (confirmed): in the body assembled by `Tag::save`, the stored
unknown frames are rendered if and only if the version they were parsed
under equals the tag's current post-upgrade version; when the versions
differ the unknown frames are dropped while the extended header and the
known frames are still written, as the unchanged leading bytes of the
body. -/
theorem c8_unknown_frames (t : Musikr.TagRender) (h : t.unknownRender ≠ []) :
    (Musikr.save_assemble t = t.extRender ++ t.framesRender ++ t.unknownRender ↔
      t.unknownVersion = Musikr.upgradedVersion t.version) ∧
    (t.unknownVersion ≠ Musikr.upgradedVersion t.version →
      Musikr.save_assemble t = t.extRender ++ t.framesRender) ∧
    (Musikr.save_assemble t).take (t.extRender ++ t.framesRender).length =
      t.extRender ++ t.framesRender := by
  by_cases heq : t.unknownVersion = Musikr.upgradedVersion t.version
  · refine ⟨⟨fun _ => heq, fun _ => ?_⟩, fun hne => absurd heq hne, ?_⟩
    · simp [Musikr.save_assemble, heq]
    · simp only [Musikr.save_assemble, if_pos heq]
      exact take_len_append _ _
  · have hbody : Musikr.save_assemble t = t.extRender ++ t.framesRender := by
      simp [Musikr.save_assemble, heq]
    refine ⟨⟨fun habs => ?_, fun h24 => absurd h24 heq⟩, fun _ => hbody, ?_⟩
    · rw [hbody] at habs
      have : ([] : List Nat) = t.unknownRender := by
        have h2 := habs
        conv at h2 => lhs; rw [show t.extRender ++ t.framesRender =
          t.extRender ++ t.framesRender ++ ([] : List Nat) by simp]
        simpa using h2
      exact absurd this.symm h
    · rw [hbody]
      simp

/-- Claim C8 witness: `c8_unknown_frames` applied at a concrete tag render
whose unknown frames were parsed under the tag's own (post-upgrade)
version. -/
theorem c8_unknown_frames_witness :
    Musikr.save_assemble ⟨Musikr.Version.V24, [1], [2, 3], Musikr.Version.V24, [4]⟩ =
        ([1] : List Nat) ++ [2, 3] ++ [4] ↔
      Musikr.Version.V24 =
        Musikr.upgradedVersion Musikr.Version.V24 :=
  (c8_unknown_frames ⟨Musikr.Version.V24, [1], [2, 3], Musikr.Version.V24, [4]⟩
    (by decide)).1

/-! ## Claim C9 -/

/-- Claim C9 (confirmed): in the header stage of `Tag::open`, a
`MalformedData` failure of `TagHeader::parse` (bad `"ID3"` magic included)
is remapped to `NotFound`, while every other header-stage error — the IO
error of a file shorter than 10 bytes, or any non-`MalformedData` parse
error — is returned unchanged. -/
theorem c9_open_header (file : List Nat) (e : Musikr.ParseError) :
    (file.length < 10 →
      Musikr.open_header_stage file = Except.error Musikr.ParseError.IoError) ∧
    (10 ≤ file.length →
      Musikr.tag_header_parse (file.take 10) = Except.error e →
      Musikr.open_header_stage file =
        Except.error
          (if e = Musikr.ParseError.MalformedData then Musikr.ParseError.NotFound
           else e)) := by
  constructor
  · intro hlen
    simp [Musikr.open_header_stage, hlen]
  · intro hlen hp
    simp only [Musikr.open_header_stage, if_neg (by omega : ¬ file.length < 10), hp]
    cases e <;> simp [Musikr.open_header_err_remap]

/-- Claim C9 witness: `c9_open_header` applied at a 10-byte buffer whose
magic is not `"ID3"` (parse fails `MalformedData`, open reports
`NotFound`). -/
theorem c9_open_header_witness :
    Musikr.open_header_stage [0x41, 0x42, 0x43, 3, 0, 0, 0, 0, 0, 0] =
      Except.error
        (if Musikr.ParseError.MalformedData = Musikr.ParseError.MalformedData then
          Musikr.ParseError.NotFound
         else Musikr.ParseError.MalformedData) :=
  (c9_open_header [0x41, 0x42, 0x43, 3, 0, 0, 0, 0, 0, 0]
      Musikr.ParseError.MalformedData).2 (by decide) (by decide)

/-! ## Claim C10 -/

/-- Claim C10 (confirmed): `Encoding::from_raw` is total over byte values —
0x00 (Latin1/ASCII) and 0x03 both map to `Utf8`, 0x01 maps to `Utf16Bom`,
0x02 maps to `Utf16Be`, and every other byte value silently falls back to
`Utf8`. -/
theorem c10_from_raw (b : Nat) (hb : b < 256) :
    ((b = 0 ∨ b = 3) → Libmusikr.Encoding.from_raw b = Libmusikr.Encoding.Utf8) ∧
    (b = 1 → Libmusikr.Encoding.from_raw b = Libmusikr.Encoding.Utf16Bom) ∧
    (b = 2 → Libmusikr.Encoding.from_raw b = Libmusikr.Encoding.Utf16Be) ∧
    (b ≠ 0 → b ≠ 1 → b ≠ 2 → b ≠ 3 →
      Libmusikr.Encoding.from_raw b = Libmusikr.Encoding.Utf8) := by
  refine ⟨fun h => ?_, fun h => ?_, fun h => ?_, fun h0 h1 h2 h3 => ?_⟩
  · rcases h with h | h <;> subst h <;> decide
  · subst h; decide
  · subst h; decide
  · simp [Libmusikr.Encoding.from_raw, Libmusikr.ENCODING_ASCII,
      Libmusikr.ENCODING_UTF8, Libmusikr.ENCODING_UTF16_BOM,
      Libmusikr.ENCODING_UTF16_BE, h0, h1, h2, h3]

/-- Claim C10 witness: `c10_from_raw` applied at the out-of-range byte
`0xC8`. -/
theorem c10_from_raw_witness :
    Libmusikr.Encoding.from_raw 200 = Libmusikr.Encoding.Utf8 :=
  (c10_from_raw 200 (by decide)).2.2.2 (by decide) (by decide) (by decide) (by decide)
